import Mathlib

/-!
Verification of the CV_RPS core pipeline against its design description.

The definitions below are a shallow embedding of the Python sources:
  * `src/src/game_info.py`  — round winner logic, score and round history,
  * `src/src/password_lock.py` — the gesture-sequence authentication FSM,
  * `src/src/game.py` (`_wait_stable_gestures`) — the per-player stability
    debounce used for round capture,
  * `src/src/tracker.py` — per-color tracking control flow (detection,
    Kalman predict/correct discipline, finger counting, smoothing).

Machine integers are modelled as `Nat`/`Int` (Python ints are unbounded, so
no wrap-around modelling is needed); geometric quantities produced by OpenCV
are modelled as `Rat`; Python `None`-able values become `Option`.
-/

namespace CVRPS

/-! ## game_info.py -/

/-- The `beats` dictionary lookup in `GameInformation.winner_rps`
(`src/src/game_info.py` line 39): `beats.get(g)`. -/
def beats (g : String) : Option String :=
  if g = "ROCK" then some "SCISSORS"
  else if g = "SCISSORS" then some "PAPER"
  else if g = "PAPER" then some "ROCK"
  else none

/-- `GameInformation.winner_rps` (`src/src/game_info.py` lines 32-40). -/
def winner_rps (g1 g2 : Option String) : String :=
  match g1, g2 with
  | none, _ => "null"
  | _, none => "null"
  | some a, some b =>
    if a = b then "draw"
    else if beats a = some b then "p1" else "p2"

/-- The running score dictionary `{p1: _, p2: _, "draws": _, "nulls": _}`
created in `GameInformation.__init__` (`src/src/game_info.py` line 27). -/
structure Score where
  p1 : Nat
  p2 : Nat
  draws : Nat
  nulls : Nat
deriving DecidableEq, Repr

/-- `RoundRecord` (`src/src/game_info.py` lines 9-15).  The `frames` field
(image snapshots held as numpy arrays) is outside the shallow embedding and
is omitted; no claim concerns it. -/
structure RoundRecord where
  round_id : Nat
  choice1 : Option String
  choice2 : Option String
  outcome1 : String
  outcome2 : String
  score : Score
deriving DecidableEq, Repr

/-- The mutable state of `GameInformation` (`src/src/game_info.py`
lines 18-27): two player names, round counter, history, running score. -/
structure GameInformation where
  p1 : String
  p2 : String
  round_id : Nat
  history : List RoundRecord
  score : Score
deriving DecidableEq, Repr

/-- `GameInformation.__init__` for two players. -/
def GameInformation.start (p1 p2 : String) : GameInformation :=
  ⟨p1, p2, 0, [], ⟨0, 0, 0, 0⟩⟩

/-- `GameInformation.add_round` (`src/src/game_info.py` lines 51-91),
restricted to the score/outcome/history bookkeeping (the mask/frame
snapshots stored in `RoundRecord.frames` are omitted, see `RoundRecord`).
`choices` models the Python dict via its `get` function (missing key ↦
`none`, which Python also treats as an absent gesture). -/
def add_round (gi : GameInformation) (choices : String → Option String) :
    GameInformation × RoundRecord :=
  let g1 := choices gi.p1
  let g2 := choices gi.p2
  let w := winner_rps g1 g2
  let su :=
    if w = "p1" then ({ gi.score with p1 := gi.score.p1 + 1 }, "winner", "loser")
    else if w = "p2" then ({ gi.score with p2 := gi.score.p2 + 1 }, "loser", "winner")
    else if w = "draw" then ({ gi.score with draws := gi.score.draws + 1 }, "draw", "draw")
    else ({ gi.score with nulls := gi.score.nulls + 1 }, "null", "null")
  let rid := gi.round_id + 1
  let rec0 : RoundRecord := ⟨rid, g1, g2, su.2.1, su.2.2, su.1⟩
  ({ gi with round_id := rid, history := gi.history ++ [rec0], score := su.1 }, rec0)

/-! ## password_lock.py -/

/-- A Python value sitting in the `"gesture"` slot of a tracker result:
`None`, a string, or any other value (`PasswordLock._norm_g` distinguishes
exactly these three cases, `src/src/password_lock.py` lines 62-68). -/
inductive PyVal where
  | vnone
  | vstr (s : String)
  | vother
deriving DecidableEq, Repr

/-- One per-color entry of the tracker results dict, as read by
`PasswordLock._current_pair`: the `"detected"` flag and the `"gesture"`
value.  A missing entry behaves as `⟨false, .vnone⟩`. -/
structure ResInfo where
  detected : Bool
  gesture : PyVal
deriving DecidableEq, Repr

/-- The results dict passed to `PasswordLock.update`, modelled by its
lookup function (`dict.get`: missing key ↦ `none`). -/
abbrev Results := String → Option ResInfo

/-- `PasswordConfig` (`src/src/password_lock.py` lines 8-22).  Fields are
`Int` as in Python; `timeout_s` is unused by `update` and omitted. -/
structure PasswordConfig where
  steps : List (String × String)
  confirm_pair : String × String
  stable_required_frames : Int
  settle_frames_after_step : Int
  wrong_flash_frames : Int
deriving DecidableEq, Repr

/-- The lock phase strings `"ARM" | "SELECT" | "CONFIRM" | "DONE"`
(`self.state`, `src/src/password_lock.py` line 49). -/
inductive Phase where
  | ARM
  | SELECT
  | CONFIRM
  | DONE
deriving DecidableEq, Repr

/-- The full mutable state of a `PasswordLock` instance
(`src/src/password_lock.py` lines 35-57).  The counters `_flash_wrong`,
`_streak` and `_cooldown` are kept as `Nat`: in the source they are only
ever set to `0`, to `max(0, int(settle))`, to `int(wrong_flash_frames)`
(read exclusively through `> 0` comparisons, so a negative value behaves
as `0`), incremented, or decremented while `> 0` — all of which `Nat`
with `Int.toNat` conversion reproduces exactly.  `selected_step` stores
the raw observed pair, whose components are `Option String` exactly as
`self.selected_step = (pair[0], pair[1])` stores possibly-`None` slots. -/
structure PasswordLock where
  p1 : String
  p2 : String
  cfg : PasswordConfig
  flash_wrong : Nat
  last_wrong_selected : Option (Option String × Option String)
  last_wrong_expected : Option (String × String)
  state : Phase
  step_idx : Nat
  selected_step : Option (Option String × Option String)
  streak : Nat
  cooldown : Nat
  last_pair : Option String × Option String
  last_event : Option String
deriving DecidableEq, Repr

namespace PasswordLock

/-- `PasswordLock.reset` (`src/src/password_lock.py` lines 48-57). -/
def reset (lk : PasswordLock) : PasswordLock :=
  { lk with
    state := Phase.ARM
    step_idx := 0
    selected_step := none
    streak := 0
    cooldown := 0
    last_pair := (none, none)
    last_event := none }

/-- `PasswordLock.__init__` for two players (`src/src/password_lock.py`
lines 35-46): zeroed transient UI state, then `reset()`. -/
def start (p1 p2 : String) (cfg : PasswordConfig) : PasswordLock :=
  reset ⟨p1, p2, cfg, 0, none, none, Phase.ARM, 0, none, 0, 0, (none, none), none⟩

/-- Python `str.strip()`: drop leading and trailing whitespace.  (Stated
over `String.data` with structural recursion; extensionally this is
`String.trim`, whose well-founded implementation does not reduce in the
kernel.) -/
def py_strip (s : String) : String :=
  ⟨((s.data.dropWhile Char.isWhitespace).reverse.dropWhile Char.isWhitespace).reverse⟩

/-- Python `str.upper()` (ASCII-relevant behavior, as `String.toUpper`). -/
def py_upper (s : String) : String :=
  ⟨s.data.map Char.toUpper⟩

/-- `PasswordLock._norm_g` (`src/src/password_lock.py` lines 62-68):
`None` stays absent, a string is stripped and upper-cased (empty after
stripping ↦ absent), anything else is absent. -/
def norm_g : PyVal → Option String
  | PyVal.vnone => none
  | PyVal.vstr s =>
    let t := py_upper (py_strip s)
    if t = "" then none else some t
  | PyVal.vother => none

/-- `PasswordLock._current_pair` (`src/src/password_lock.py` lines 70-79):
per player, a missing results entry defaults to undetected, and a gesture
only counts when `detected` is truthy. -/
def current_pair (lk : PasswordLock) (results : Results) :
    Option String × Option String :=
  let i1 := (results lk.p1).getD ⟨false, PyVal.vnone⟩
  let i2 := (results lk.p2).getD ⟨false, PyVal.vnone⟩
  let g1 := if i1.detected then norm_g i1.gesture else none
  let g2 := if i2.detected then norm_g i2.gesture else none
  (g1, g2)

/-- `PasswordLock._pair_eq` (`src/src/password_lock.py` lines 81-82). -/
def pair_eq (a : Option String × Option String) (b : String × String) : Bool :=
  decide (a.1 = some b.1 ∧ a.2 = some b.2)

/-- `PasswordLock._both_present` (`src/src/password_lock.py` lines 84-85). -/
def both_present (a : Option String × Option String) : Bool :=
  a.1.isSome && a.2.isSome

/-- `PasswordLock._bump_or_reset` (`src/src/password_lock.py` lines 87-88). -/
def bump_or_reset (streak : Nat) (condition : Bool) : Nat :=
  if condition then streak + 1 else 0

/-- `PasswordLock._set_cooldown` (`src/src/password_lock.py` lines 90-91):
`max(0, int(settle_frames_after_step))`. -/
def set_cooldown (lk : PasswordLock) : PasswordLock :=
  { lk with cooldown := (max 0 lk.cfg.settle_frames_after_step).toNat }

/-- `PasswordLock._wrong_and_reset` (`src/src/password_lock.py`
lines 93-99). -/
def wrong_and_reset (lk : PasswordLock)
    (selected : Option (Option String × Option String))
    (expected : Option (String × String)) : PasswordLock :=
  let lk := { lk with
    last_wrong_selected := selected
    last_wrong_expected := expected
    flash_wrong := lk.cfg.wrong_flash_frames.toNat }
  let lk := reset lk
  set_cooldown { lk with last_event := some "wrong" }

/-- The ARM block of `PasswordLock.update`
(`src/src/password_lock.py` lines 129-146). -/
def update_arm (lk : PasswordLock) (pair : Option String × Option String) :
    PasswordLock × Bool :=
  let lk := { lk with streak := bump_or_reset lk.streak (pair_eq pair lk.cfg.confirm_pair) }
  if (lk.streak : Int) ≥ lk.cfg.stable_required_frames then
    let lk := { lk with streak := 0 }
    if lk.cfg.steps.length > 0 then
      (set_cooldown { lk with state := Phase.SELECT, last_event := some "armed" }, false)
    else
      ({ lk with state := Phase.DONE, last_event := some "unlocked" }, true)
  else
    (lk, false)

/-- The SELECT block of `PasswordLock.update`
(`src/src/password_lock.py` lines 148-166). -/
def update_select (lk : PasswordLock) (pair : Option String × Option String) :
    PasswordLock × Bool :=
  if lk.step_idx ≥ lk.cfg.steps.length then
    ({ lk with state := Phase.DONE, last_event := some "unlocked" }, true)
  else
    let selectable := both_present pair && !(pair_eq pair lk.cfg.confirm_pair)
    let lk := { lk with streak := bump_or_reset lk.streak selectable }
    if (lk.streak : Int) ≥ lk.cfg.stable_required_frames then
      (set_cooldown { lk with
        streak := 0
        selected_step := some (pair.1, pair.2)
        state := Phase.CONFIRM
        last_event := some "selected" }, false)
    else
      (lk, false)

/-- The CONFIRM block of `PasswordLock.update`
(`src/src/password_lock.py` lines 168-205). -/
def update_confirm (lk : PasswordLock) (pair : Option String × Option String) :
    PasswordLock × Bool :=
  let lk := { lk with streak := bump_or_reset lk.streak (pair_eq pair lk.cfg.confirm_pair) }
  if (lk.streak : Int) ≥ lk.cfg.stable_required_frames then
    let lk := { lk with streak := 0 }
    let expected := lk.cfg.steps.get? lk.step_idx
    let chosen := lk.selected_step
    match expected, chosen with
    | none, _ => (wrong_and_reset lk chosen expected, false)
    | _, none => (wrong_and_reset lk chosen expected, false)
    | some e, some c =>
      if pair_eq c e then
        let lk := set_cooldown { lk with
          selected_step := none
          step_idx := lk.step_idx + 1
          last_event := some "confirmed" }
        if lk.step_idx ≥ lk.cfg.steps.length then
          ({ lk with state := Phase.DONE, last_event := some "unlocked" }, true)
        else
          ({ lk with state := Phase.SELECT }, false)
      else
        (wrong_and_reset lk chosen expected, false)
  else
    (lk, false)

/-- The body of `PasswordLock.update` after the observed pair has been
read off the results dict.  `update` reads `results` only through
`_current_pair` (computed identically in the cooldown branch, line 118,
and the main path, line 121), so the rest of the per-frame step is a
function of the lock state and that pair. -/
def update_pair (lk0 : PasswordLock) (pair : Option String × Option String) :
    PasswordLock × Bool :=
  let lk := { lk0 with last_event := none }
  let lk := if lk.flash_wrong > 0 then { lk with flash_wrong := lk.flash_wrong - 1 } else lk
  if lk.cooldown > 0 then
    ({ lk with cooldown := lk.cooldown - 1, last_pair := pair },
     decide (lk.state = Phase.DONE))
  else
    let lk := { lk with last_pair := pair }
    if lk.state = Phase.DONE then (lk, true)
    else if lk.state = Phase.ARM then update_arm lk pair
    else if lk.state = Phase.SELECT then update_select lk pair
    else if lk.state = Phase.CONFIRM then update_confirm lk pair
    else (lk, false)

/-- `PasswordLock.update` (`src/src/password_lock.py` lines 104-207),
returning the updated lock together with the boolean result; the three
per-phase blocks are split out above. -/
def update (lk0 : PasswordLock) (results : Results) : PasswordLock × Bool :=
  update_pair lk0 (current_pair lk0 results)

end PasswordLock

/-- Runs `PasswordLock.update` over a list of per-frame results dicts,
returning the final lock state and the last call's boolean result. -/
def run_updates (lk : PasswordLock) (frames : List Results) : PasswordLock × Bool :=
  frames.foldl (fun acc r => acc.1.update r) (lk, false)

/-- Builds the results-dict entry the tracker emits for a player showing
gesture `g` (detected with a string gesture) or hidden (`none`). -/
def mk_info : Option String → ResInfo
  | some s => ⟨true, PyVal.vstr s⟩
  | none => ⟨false, PyVal.vnone⟩

/-- A two-player results dict for players `"A"` and `"B"`. -/
def res_pair (g1 g2 : Option String) : Results :=
  fun p => if p = "A" then some (mk_info g1)
    else if p = "B" then some (mk_info g2)
    else none

/-! ## game.py — per-player round-capture debounce -/

/-- One step of the per-player stability debounce in
`Game._wait_stable_gestures` (`src/src/game.py` lines 420-430): state is
`(last_g, streak)`, input is the player's `(detected, gesture)` for this
frame. -/
def deb_step (st : Option String × Nat) (d : Bool) (g : Option String) :
    Option String × Nat :=
  if d && g.isSome && decide (g = st.1) then
    (st.1, st.2 + 1)
  else if d && g.isSome then
    (g, 1)
  else
    (none, 0)

/-- Folds `deb_step` over a list of per-frame `(detected, gesture)` inputs. -/
def deb_run (st : Option String × Nat) (frames : List (Bool × Option String)) :
    Option String × Nat :=
  frames.foldl (fun s f => deb_step s f.1 f.2) st

/-! ## tracker.py -/

/-- The data the tracker reads off one OpenCV contour: `cv2.contourArea`
and `cv2.boundingRect` (`src/src/tracker.py` lines 202-206).  The pixel
geometry behind these numbers is external to the embedding. -/
structure Contour where
  area : Rat
  rect : Int × Int × Int × Int
deriving DecidableEq, Repr

/-- Python `max(contours, key=cv2.contourArea)`: first contour of maximal
area (later ties do not replace an earlier maximum). -/
def pick_largest (cs : List Contour) : Option Contour :=
  cs.foldl
    (fun acc c =>
      match acc with
      | none => some c
      | some m => if c.area > m.area then some c else some m)
    none

/-- `Tracker._detect_bbox_and_center` (`src/src/tracker.py` lines 194-209)
after the mask stage: given the contours found in the cleaned mask, return
the bounding box and centroid of the largest one, or `none` when there is
no contour or the largest is below `min_area_detect`. -/
def detect_bbox_center (min_area_detect : Rat) (contours : List Contour) :
    Option ((Int × Int × Int × Int) × (Rat × Rat)) :=
  match pick_largest contours with
  | none => none
  | some cnt =>
    if cnt.area < min_area_detect then none
    else
      let x := cnt.rect.1
      let y := cnt.rect.2.1
      let w := cnt.rect.2.2.1
      let h := cnt.rect.2.2.2
      some ((x, y, w, h), ((x : Rat) + (w : Rat) / 2, (y : Rat) + (h : Rat) / 2))

/-- One row `(s, e, f, d)` of `cv2.convexityDefects`
(`src/src/tracker.py` line 243). -/
structure Defect where
  s : Nat
  e : Nat
  f : Nat
  d : Int
deriving DecidableEq, Repr

/-- `Tracker._count_fingers` (`src/src/tracker.py` lines 233-261).  The
convex hull and defect rows are the outputs of the OpenCV calls; the
per-defect gap test (law-of-cosines angle below `defect_angle_deg` and
normalized depth above `defect_depth`, computed in floating point, plus
the `b * c == 0` skip) is abstracted as the predicate `is_gap`. -/
def count_fingers (hull : Option (List Nat)) (defects : Option (List Defect))
    (is_gap : Defect → Bool) : Nat :=
  match hull with
  | none => 0
  | some h =>
    if h.length < 3 then 0
    else
      match defects with
      | none => 0
      | some ds =>
        let gaps := (ds.filter is_gap).length
        let fingers := if gaps > 0 then gaps + 1 else 0
        min fingers 5

/-- `Tracker._fingers_to_rps` (`src/src/tracker.py` lines 263-269). -/
def fingers_to_rps (fingers : Nat) : String :=
  if fingers ≤ 1 then "ROCK"
  else if fingers = 2 then "SCISSORS"
  else "PAPER"

/-- `Tracker._largest_contour` (`src/src/tracker.py` lines 226-231): the
largest contour of the ROI mask, or `none` when absent or below
`min_area_contour_roi`. -/
def largest_contour_roi (min_area_contour_roi : Rat) (cs : List Contour) :
    Option Contour :=
  match pick_largest cs with
  | none => none
  | some c => if c.area ≥ min_area_contour_roi then some c else none

/-- The operations of one `cv2.KalmanFilter` object, abstracted over its
internal state `κ` (`src/src/tracker.py` lines 153-169): `predict` is the
`kf.predict()` state transformer, `pos` reads `(pred[0,0], pred[1,0])`
off the predicted state, `set_post` is `Tracker._init_kalman` (overwrite
`statePost`/`errorCovPost` with the measured center and zero velocity),
`correct` is `kf.correct(meas)`. -/
structure KalmanOps (κ : Type) where
  predict : κ → κ
  pos : κ → Rat × Rat
  set_post : Rat × Rat → κ → κ
  correct : Rat × Rat → κ → κ

/-- The per-color track state `self.tracks[name]`
(`src/src/tracker.py` lines 64-71). -/
structure TrackState (κ : Type) where
  kf : κ
  init : Bool
  last_size : Int × Int
  smoother : List String

/-- `deque(maxlen = n).append` for the `GestureSmoother` buffer
(`src/src/tracker.py` lines 8-14). -/
def smoother_push (n : Nat) (buf : List String) (g : String) : List String :=
  let buf := buf ++ [g]
  if buf.length > n then buf.drop (buf.length - n) else buf

/-- `Counter(buf).most_common(1)[0][0]`: the label with the maximal count,
ties resolved to the first-inserted label (Python `Counter` iteration
order plus stable sorting). -/
def smoother_majority (buf : List String) : Option String :=
  let keys := buf.foldl (fun acc g => if g ∈ acc then acc else acc ++ [g]) []
  match keys with
  | [] => none
  | k :: ks =>
    some ((k :: ks).foldl (fun best g => if buf.count g > buf.count best then g else best) k)

/-- The per-frame `Observation` record the tracker emits for one color
(`src/src/tracker.py` lines 129-143). -/
structure Observation where
  detected : Bool
  bbox : Option (Int × Int × Int × Int)
  center_meas : Option (Rat × Rat)
  center_pred : Option (Rat × Rat)
  gesture : Option String
deriving DecidableEq, Repr

/-- The body of `Tracker.update` for one color (`src/src/tracker.py`
lines 98-143).  The image-dependent stages are supplied as data:
`detection` is the result of `_detect_bbox_and_center` on this frame and
`recognize` is `_recognize_rps_from_bbox` (ROI crop, re-segmentation,
largest ROI contour, finger counting).  The Kalman filter is threaded
through `ops` so that the predict/init/correct call discipline of the
source is explicit in the dataflow. -/
def update_color {κ : Type} (ops : KalmanOps κ) (smoother_n : Nat)
    (st : TrackState κ)
    (detection : Option ((Int × Int × Int × Int) × (Rat × Rat)))
    (recognize : (Int × Int × Int × Int) → Option String) :
    TrackState κ × Observation :=
  let predicted := ops.predict st.kf
  let pred_center : Option (Rat × Rat) :=
    if st.init then some (ops.pos predicted) else none
  match detection with
  | some bc =>
    let bbox := bc.1
    let center := bc.2
    let kf1 := if st.init then predicted else ops.set_post center predicted
    let kf2 := ops.correct center kf1
    let g_raw := recognize bbox
    let sm :=
      match g_raw with
      | none => (st.smoother, (none : Option String))
      | some g =>
        let buf := smoother_push smoother_n st.smoother g
        (buf, smoother_majority buf)
    (⟨kf2, true, (bbox.2.2.1, bbox.2.2.2), sm.1⟩,
     ⟨true, some bbox, some center, pred_center, sm.2⟩)
  | none =>
    (⟨predicted, st.init, st.last_size, st.smoother⟩,
     ⟨false, none, none, pred_center, none⟩)

/-! ## Concrete instances used by the scenario claims -/

/-- The spec scenario configuration with source-default cooldown and
wrong-flash frames (`settle_frames_after_step = 12`,
`wrong_flash_frames = 45`, `src/src/password_lock.py` lines 17-22). -/
def cfg_scenario : PasswordConfig :=
  ⟨[("ROCK", "SCISSORS")], ("ROCK", "ROCK"), 3, 12, 45⟩

/-- The spec scenario configuration with the post-transition cooldown
disabled (`settle_frames_after_step = 0`). -/
def cfg_scenario0 : PasswordConfig :=
  ⟨[("ROCK", "SCISSORS")], ("ROCK", "ROCK"), 3, 0, 45⟩

/-- Frame where both players show ROCK. -/
def rRR : Results := res_pair (some "ROCK") (some "ROCK")

/-- Frame where player A shows ROCK and player B shows SCISSORS. -/
def rRS : Results := res_pair (some "ROCK") (some "SCISSORS")

/-- Frame where both players show PAPER. -/
def rPP : Results := res_pair (some "PAPER") (some "PAPER")

/-- The CONFIRM-phase failure condition of `PasswordLock.update`
(`src/src/password_lock.py` lines 179-203): the expected step is missing,
the stored selection is missing, or the stored selection differs from the
expected step. -/
def confirm_mismatch (lk : PasswordLock) : Bool :=
  match lk.cfg.steps.get? lk.step_idx, lk.selected_step with
  | none, _ => true
  | some _, none => true
  | some e, some c => !(PasswordLock.pair_eq c e)

/-- A lock mid-session: in CONFIRM with `(ROCK,SCISSORS)` stored as the
selection while the expected first step is `(PAPER,PAPER)`, two frames
into the confirm debounce (threshold 3). -/
def lk_confirm_wrong : PasswordLock :=
  { PasswordLock.start "A" "B" ⟨[("PAPER", "PAPER")], ("ROCK", "ROCK"), 3, 12, 45⟩ with
    state := Phase.CONFIRM
    selected_step := some (some "ROCK", some "SCISSORS")
    streak := 2 }

/-- An unlocked lock (phase DONE). -/
def lk_done : PasswordLock :=
  { PasswordLock.start "A" "B" cfg_scenario0 with state := Phase.DONE }

/-- A concrete Kalman-operation instance over `Int` states, used to
instantiate the tracker control-flow theorems. -/
def kops_test : KalmanOps Int :=
  ⟨fun k => k + 1, fun k => ((k : Rat), (k : Rat)), fun _ k => k, fun _ k => k + 2⟩

/-- A concrete, already-initialized track state over `Int`. -/
def tstate_test : TrackState Int :=
  ⟨0, true, (120, 120), []⟩

/-- A concrete, uninitialized track state over `Int`. -/
def tstate_fresh : TrackState Int :=
  ⟨0, false, (120, 120), []⟩

/-- A results dict whose player-A entry is undetected yet still carries a
gesture string. -/
def res_hidden_gesture : Results :=
  fun p => if p = "A" then some ⟨false, PyVal.vstr "ROCK"⟩
    else if p = "B" then some ⟨false, PyVal.vstr "PAPER"⟩
    else none

/-- The lock of the cooldown-free scenario after the three arming frames
of `(ROCK,ROCK)`. -/
def lock_after_arm : PasswordLock :=
  (run_updates (PasswordLock.start "A" "B" cfg_scenario0) (List.replicate 3 rRR)).1

/-- `lock_after_arm` after the three selection frames of
`(ROCK,SCISSORS)`. -/
def lock_after_select : PasswordLock :=
  (run_updates lock_after_arm (List.replicate 3 rRS)).1

/-- `lock_after_select` after the three confirm frames of `(ROCK,ROCK)`,
with the last call's boolean result. -/
def lock_scenario_final : PasswordLock × Bool :=
  run_updates lock_after_select (List.replicate 3 rRR)

/-- The round-1 choices dict `{P1: ROCK, P2: SCISSORS}`. -/
def choices_r1 : String → Option String :=
  fun p => if p = "P1" then some "ROCK" else if p = "P2" then some "SCISSORS" else none

/-- The round-2 choices dict `{P1: PAPER, P2: PAPER}`. -/
def choices_r2 : String → Option String :=
  fun p => if p = "P1" then some "PAPER" else if p = "P2" then some "PAPER" else none

/-- The round-3 choices dict `{P1: None, P2: ROCK}`. -/
def choices_r3 : String → Option String :=
  fun p => if p = "P1" then none else if p = "P2" then some "ROCK" else none

/-- A fresh two-player game stepped through the three rounds
`(ROCK,SCISSORS)`, `(PAPER,PAPER)`, `(none,ROCK)`. -/
def game_three_rounds : GameInformation :=
  (add_round (add_round (add_round (GameInformation.start "P1" "P2")
    choices_r1).1 choices_r2).1 choices_r3).1

/-! ## Helper lemmas -/

theorem deb_run_cons (st : Option String × Nat) (d : Bool) (g : Option String)
    (fs : List (Bool × Option String)) :
    deb_run st ((d, g) :: fs) = deb_run (deb_step st d g) fs := rfl

theorem deb_run_replicate_same (v : String) (n K : Nat) :
    deb_run (some v, n) (List.replicate K (true, some v)) = (some v, n + K) := by
  induction K generalizing n with
  | zero => simp [deb_run]
  | succ k ih =>
    rw [List.replicate_succ, deb_run_cons]
    have hs : deb_step (some v, n) true (some v) = (some v, n + 1) := by
      simp [deb_step]
    rw [hs, ih]
    congr 1
    omega

/-- During cooldown, `update` only decrements the cooldown, records the
observed pair, and reports whether the phase is DONE.  (The flash branch
is absorbed into `flash_wrong - 1`, which `Nat` saturation makes exact.) -/
theorem update_cooldown_pos (lk : PasswordLock) (res : Results) (h : 0 < lk.cooldown) :
    lk.update res =
      ({ lk with
          last_event := none
          flash_wrong := lk.flash_wrong - 1
          cooldown := lk.cooldown - 1
          last_pair := PasswordLock.current_pair lk res },
       decide (lk.state = Phase.DONE)) := by
  cases lk
  simp only [PasswordLock.update, PasswordLock.update_pair, PasswordLock.current_pair] at *
  split_ifs <;> simp_all

/-- Out of cooldown and in DONE, `update` records the pair and returns
true. -/
theorem update_done_eq (lk : PasswordLock) (res : Results)
    (h1 : lk.state = Phase.DONE) (h2 : lk.cooldown = 0) :
    lk.update res =
      ({ lk with
          last_event := none
          flash_wrong := lk.flash_wrong - 1
          last_pair := PasswordLock.current_pair lk res },
       true) := by
  cases lk
  simp only [PasswordLock.update, PasswordLock.update_pair, PasswordLock.current_pair] at *
  subst h1 h2
  split_ifs <;> simp_all

/-- Out of cooldown and in ARM, `update` runs the ARM block. -/
theorem update_arm_dispatch (lk : PasswordLock) (res : Results)
    (h1 : lk.state = Phase.ARM) (h2 : lk.cooldown = 0) :
    lk.update res =
      PasswordLock.update_arm
        { lk with
            last_event := none
            flash_wrong := lk.flash_wrong - 1
            last_pair := PasswordLock.current_pair lk res }
        (PasswordLock.current_pair lk res) := by
  cases lk
  simp only [PasswordLock.update, PasswordLock.update_pair, PasswordLock.current_pair] at *
  subst h1 h2
  split_ifs <;> simp_all

/-- Out of cooldown and in SELECT, `update` runs the SELECT block. -/
theorem update_select_dispatch (lk : PasswordLock) (res : Results)
    (h1 : lk.state = Phase.SELECT) (h2 : lk.cooldown = 0) :
    lk.update res =
      PasswordLock.update_select
        { lk with
            last_event := none
            flash_wrong := lk.flash_wrong - 1
            last_pair := PasswordLock.current_pair lk res }
        (PasswordLock.current_pair lk res) := by
  cases lk
  simp only [PasswordLock.update, PasswordLock.update_pair, PasswordLock.current_pair] at *
  subst h1 h2
  split_ifs <;> simp_all

/-- Out of cooldown and in CONFIRM, `update` runs the CONFIRM block. -/
theorem update_confirm_dispatch (lk : PasswordLock) (res : Results)
    (h1 : lk.state = Phase.CONFIRM) (h2 : lk.cooldown = 0) :
    lk.update res =
      PasswordLock.update_confirm
        { lk with
            last_event := none
            flash_wrong := lk.flash_wrong - 1
            last_pair := PasswordLock.current_pair lk res }
        (PasswordLock.current_pair lk res) := by
  cases lk
  simp only [PasswordLock.update, PasswordLock.update_pair, PasswordLock.current_pair] at *
  subst h1 h2
  split_ifs <;> simp_all

/-- The CONFIRM block on a wrong (or missing) confirmation: once the
confirm debounce reaches the threshold and the stored selection fails to
match the expected step, the lock is fully reset with the wrong-pair
bookkeeping filled in. -/
theorem update_confirm_wrong (lk2 : PasswordLock)
    (pair : Option String × Option String)
    (hp : PasswordLock.pair_eq pair lk2.cfg.confirm_pair = true)
    (ht : (lk2.streak : Int) + 1 ≥ lk2.cfg.stable_required_frames)
    (hm : confirm_mismatch lk2 = true) :
    (PasswordLock.update_confirm lk2 pair).2 = false ∧
    (PasswordLock.update_confirm lk2 pair).1.state = Phase.ARM ∧
    (PasswordLock.update_confirm lk2 pair).1.step_idx = 0 ∧
    (PasswordLock.update_confirm lk2 pair).1.selected_step = none ∧
    (PasswordLock.update_confirm lk2 pair).1.last_event = some "wrong" ∧
    (PasswordLock.update_confirm lk2 pair).1.last_wrong_selected = lk2.selected_step ∧
    (PasswordLock.update_confirm lk2 pair).1.last_wrong_expected
      = lk2.cfg.steps.get? lk2.step_idx ∧
    (PasswordLock.update_confirm lk2 pair).1.flash_wrong
      = lk2.cfg.wrong_flash_frames.toNat := by
  have ht2 : ((lk2.streak + 1 : Nat) : Int) ≥ lk2.cfg.stable_required_frames := by
    push_cast
    exact ht
  simp only [PasswordLock.update_confirm, PasswordLock.bump_or_reset, hp, if_true, ht2, if_pos]
  rcases hexp : lk2.cfg.steps.get? lk2.step_idx with _ | e <;>
    rcases hsel : lk2.selected_step with _ | c <;>
    simp only [confirm_mismatch, hexp, hsel, Bool.not_eq_true'] at hm ⊢ <;>
    simp_all [PasswordLock.wrong_and_reset, PasswordLock.reset, PasswordLock.set_cooldown]

/-- The ARM block returns true exactly when it lands in DONE. -/
theorem update_arm_true_iff (lk2 : PasswordLock)
    (pair : Option String × Option String) (hst : lk2.state = Phase.ARM) :
    ((PasswordLock.update_arm lk2 pair).2 = true ↔
      (PasswordLock.update_arm lk2 pair).1.state = Phase.DONE) := by
  simp only [PasswordLock.update_arm, PasswordLock.bump_or_reset, PasswordLock.set_cooldown]
  split_ifs <;> simp_all

/-- The SELECT block returns true exactly when it lands in DONE. -/
theorem update_select_true_iff (lk2 : PasswordLock)
    (pair : Option String × Option String) (hst : lk2.state = Phase.SELECT) :
    ((PasswordLock.update_select lk2 pair).2 = true ↔
      (PasswordLock.update_select lk2 pair).1.state = Phase.DONE) := by
  simp only [PasswordLock.update_select, PasswordLock.bump_or_reset, PasswordLock.set_cooldown]
  split_ifs <;> simp_all

/-- The CONFIRM block returns true exactly when it lands in DONE. -/
theorem update_confirm_true_iff (lk2 : PasswordLock)
    (pair : Option String × Option String) (hst : lk2.state = Phase.CONFIRM) :
    ((PasswordLock.update_confirm lk2 pair).2 = true ↔
      (PasswordLock.update_confirm lk2 pair).1.state = Phase.DONE) := by
  rcases hexp : lk2.cfg.steps.get? lk2.step_idx with _ | e <;>
    rcases hsel : lk2.selected_step with _ | c <;>
    simp only [PasswordLock.update_confirm, PasswordLock.bump_or_reset, hexp, hsel] <;>
    split_ifs <;>
    simp_all [PasswordLock.wrong_and_reset, PasswordLock.reset, PasswordLock.set_cooldown]

/-- `update` reads the results dict only through `_current_pair`: two
dicts producing the same observed pair step the lock identically. -/
theorem update_res_congr (lk : PasswordLock) (r1 r2 : Results)
    (h : PasswordLock.current_pair lk r1 = PasswordLock.current_pair lk r2) :
    lk.update r1 = lk.update r2 := by
  unfold PasswordLock.update
  rw [h]

/-! ## Claims -/

/-- Claim C5: the round-winner function satisfies `winner(g,g) = draw` for
every gesture `g`, `winner(g,none) = winner(none,g) = null`, and on the
three valid gestures the precedence is the cyclic, antisymmetric
rock-paper-scissors order. -/
theorem winner_rps_algebra :
    (∀ s : String, winner_rps (some s) (some s) = "draw") ∧
    (∀ g : Option String, winner_rps g none = "null") ∧
    (∀ g : Option String, winner_rps none g = "null") ∧
    winner_rps (some "ROCK") (some "SCISSORS") = "p1" ∧
    winner_rps (some "SCISSORS") (some "ROCK") = "p2" ∧
    winner_rps (some "SCISSORS") (some "PAPER") = "p1" ∧
    winner_rps (some "PAPER") (some "SCISSORS") = "p2" ∧
    winner_rps (some "PAPER") (some "ROCK") = "p1" ∧
    winner_rps (some "ROCK") (some "PAPER") = "p2" := by
  refine ⟨fun s => ?_, fun g => ?_, fun g => ?_, ?_, ?_, ?_, ?_, ?_, ?_⟩
  · simp [winner_rps]
  · cases g <;> rfl
  · cases g <;> rfl
  all_goals decide

/-- Claim C9: an unrecognized non-null first gesture (not ROCK, SCISSORS
or PAPER) paired with any different non-null gesture is silently scored as
a player-2 win: the `beats` lookup misses, so the `p1` test fails and the
function falls through to `"p2"`. -/
theorem winner_rps_unknown_first_p2 (g1 g2 : String)
    (h1 : g1 ≠ "ROCK") (h2 : g1 ≠ "SCISSORS") (h3 : g1 ≠ "PAPER")
    (hne : g1 ≠ g2) :
    winner_rps (some g1) (some g2) = "p2" := by
  simp [winner_rps, beats, h1, h2, h3, hne]

/-- Witness for C9 at the concrete input `("LIZARD", "ROCK")`. -/
theorem winner_rps_unknown_first_p2_witness :
    winner_rps (some "LIZARD") (some "ROCK") = "p2" :=
  winner_rps_unknown_first_p2 "LIZARD" "ROCK" (by decide) (by decide)
    (by decide) (by decide)

/-- Claim C6: from a fresh 2-player zero score, the rounds
`(ROCK,SCISSORS)`, `(PAPER,PAPER)`, `(none,ROCK)` produce final score
`{p1:1, p2:0, draws:1, nulls:1}` and a three-record history in insertion
order whose stored snapshots are the running scores after each round's
increment. -/
theorem add_round_three_rounds_history :
    game_three_rounds.score = ⟨1, 0, 1, 1⟩ ∧
    game_three_rounds.history =
      [⟨1, some "ROCK", some "SCISSORS", "winner", "loser", ⟨1, 0, 0, 0⟩⟩,
       ⟨2, some "PAPER", some "PAPER", "draw", "draw", ⟨1, 0, 1, 0⟩⟩,
       ⟨3, none, some "ROCK", "null", "null", ⟨1, 0, 1, 1⟩⟩] := by
  decide

/-- Counterexample for C1 as stated: with the source-default
post-transition cooldown (`settle_frames_after_step = 12`,
`src/src/password_lock.py` line 18), the three `(ROCK,SCISSORS)` frames
that follow the "armed" transition are consumed by the cooldown, so the
lock stays in SELECT with no "selected" event instead of reaching
CONFIRM. -/
theorem sequence_lock_scenario_default_cooldown_fails :
    let lk := PasswordLock.start "A" "B" cfg_scenario
    let s1 := (run_updates lk (List.replicate 3 rRR)).1
    let s2 := (run_updates s1 (List.replicate 3 rRS)).1
    s1.state = Phase.SELECT ∧ s1.last_event = some "armed" ∧
    s2.state = Phase.SELECT ∧ s2.state ≠ Phase.CONFIRM ∧
    s2.last_event ≠ some "selected" := by
  decide

/-- Claim C1 (amended: the post-transition cooldown must be disabled,
`settle_frames_after_step = 0`, for three-frame batches to suffice):
3×`(ROCK,ROCK)` arms the lock into SELECT ("armed"), 3×`(ROCK,SCISSORS)`
selects into CONFIRM ("selected"), and 3×`(ROCK,ROCK)` unlocks into DONE
("unlocked") with `update` returning true. -/
theorem sequence_lock_scenario_with_zero_settle :
    lock_after_arm.state = Phase.SELECT ∧
    lock_after_arm.last_event = some "armed" ∧
    lock_after_select.state = Phase.CONFIRM ∧
    lock_after_select.last_event = some "selected" ∧
    lock_scenario_final.1.state = Phase.DONE ∧
    lock_scenario_final.1.last_event = some "unlocked" ∧
    lock_scenario_final.2 = true := by
  decide

/-- Counterexample for C4 as stated: the SequenceLock debounce does not
obey the value-streak contract.  Feeding the same non-null pair
`(PAPER,PAPER)` three consecutive times to a lock in ARM (which debounces
against `confirm_pair = (ROCK,ROCK)`) leaves the streak at 0, not 3. -/
theorem lock_debounce_not_value_streak :
    (run_updates (PasswordLock.start "A" "B" cfg_scenario)
      (List.replicate 3 rPP)).1.streak = 0 ∧
    (run_updates (PasswordLock.start "A" "B" cfg_scenario)
      (List.replicate 3 rPP)).1.streak ≠ 3 := by
  decide

/-- Claim C4 (amended): the per-player round-capture debounce obeys the
stability contract (same non-null value K consecutive times from a fresh
state yields streak K; a null or undetected frame resets the streak to 0;
a different non-null value resets it to 1), while the SequenceLock
debounce is a condition counter: whenever the observed pair fails the
phase condition (here ARM: equality with `confirm_pair`) the streak
resets to 0, never to 1, regardless of the pair's value. -/
theorem debounce_contract_amended :
    (∀ (K : Nat) (v : String),
      (deb_run (none, 0) (List.replicate K (true, some v))).2 = K) ∧
    (∀ (st : Option String × Nat) (d : Bool), deb_step st d none = (none, 0)) ∧
    (∀ (st : Option String × Nat) (g : Option String),
      deb_step st false g = (none, 0)) ∧
    (∀ (st : Option String × Nat) (v : String), st.1 ≠ some v →
      deb_step st true (some v) = (some v, 1)) ∧
    (∀ (lk : PasswordLock) (res : Results), lk.state = Phase.ARM →
      lk.cooldown = 0 →
      PasswordLock.pair_eq (PasswordLock.current_pair lk res) lk.cfg.confirm_pair = false →
      (lk.update res).1.streak = 0) := by
  refine ⟨fun K v => ?_, fun st d => ?_, fun st g => ?_,
    fun st v h => ?_, fun lk res h1 h2 h3 => ?_⟩
  · cases K with
    | zero => rfl
    | succ k =>
      rw [List.replicate_succ, deb_run_cons]
      have hs : deb_step ((none : Option String), 0) true (some v) = (some v, 1) := by
        simp [deb_step]
      rw [hs, deb_run_replicate_same]
      simp [Nat.add_comm]
  · simp [deb_step]
  · simp [deb_step]
  · simp only [deb_step]
    rw [if_neg, if_pos] <;> simp [Ne.symm h]
  · have key : ∀ (lk2 : PasswordLock) (pair : Option String × Option String),
        PasswordLock.pair_eq pair lk2.cfg.confirm_pair = false →
        (PasswordLock.update_arm lk2 pair).1.streak = 0 := by
      intro lk2 pair h
      simp only [PasswordLock.update_arm, PasswordLock.bump_or_reset, h]
      split_ifs <;> simp_all [PasswordLock.set_cooldown]
    rw [update_arm_dispatch lk res h1 h2]
    exact key _ _ h3

/-- Claim C2: in CONFIRM, when the confirm debounce reaches the threshold
and the stored selection differs from the expected step (or either is
missing), `update` records `(selected, expected)` as the last wrong pair,
starts the wrong-flash timer, resets the lock to ARM with step 0 and the
selection cleared, emits the event "wrong", and returns false.  The
embedding is total, so no exception is possible on this path. -/
theorem confirm_wrong_resets_lock (lk : PasswordLock) (res : Results)
    (h1 : lk.state = Phase.CONFIRM) (h2 : lk.cooldown = 0)
    (h3 : PasswordLock.pair_eq (PasswordLock.current_pair lk res) lk.cfg.confirm_pair = true)
    (h4 : (lk.streak : Int) + 1 ≥ lk.cfg.stable_required_frames)
    (h5 : confirm_mismatch lk = true) :
    (lk.update res).2 = false ∧
    (lk.update res).1.state = Phase.ARM ∧
    (lk.update res).1.step_idx = 0 ∧
    (lk.update res).1.selected_step = none ∧
    (lk.update res).1.last_event = some "wrong" ∧
    (lk.update res).1.last_wrong_selected = lk.selected_step ∧
    (lk.update res).1.last_wrong_expected = lk.cfg.steps.get? lk.step_idx ∧
    (lk.update res).1.flash_wrong = lk.cfg.wrong_flash_frames.toNat := by
  rw [update_confirm_dispatch lk res h1 h2]
  exact update_confirm_wrong _ _ h3 h4 h5

/-- Witness for C2: a lock in CONFIRM holding selection `(ROCK,SCISSORS)`
against expected step `(PAPER,PAPER)`, one confirm frame away from the
threshold, fed the confirm pair. -/
theorem confirm_wrong_resets_lock_witness :
    (lk_confirm_wrong.update rRR).2 = false ∧
    (lk_confirm_wrong.update rRR).1.state = Phase.ARM ∧
    (lk_confirm_wrong.update rRR).1.step_idx = 0 ∧
    (lk_confirm_wrong.update rRR).1.selected_step = none ∧
    (lk_confirm_wrong.update rRR).1.last_event = some "wrong" ∧
    (lk_confirm_wrong.update rRR).1.last_wrong_selected
      = lk_confirm_wrong.selected_step ∧
    (lk_confirm_wrong.update rRR).1.last_wrong_expected
      = lk_confirm_wrong.cfg.steps.get? lk_confirm_wrong.step_idx ∧
    (lk_confirm_wrong.update rRR).1.flash_wrong
      = lk_confirm_wrong.cfg.wrong_flash_frames.toNat :=
  confirm_wrong_resets_lock lk_confirm_wrong rRR (by decide) (by decide)
    (by decide) (by decide) (by decide)

/-- Counterexample for C3 as stated: a DONE lock's `update` is not a
strict no-op.  After the unlocking run, the lock holds
`last_event = "unlocked"`; the very next `update` clears `last_event`
(and rewrites `last_pair`), so the state changes even though the call
returns true. -/
theorem done_phase_update_mutates_state :
    let lkD := (run_updates (PasswordLock.start "A" "B" cfg_scenario0)
      (List.replicate 3 rRR ++ List.replicate 3 rRS ++ List.replicate 3 rRR)).1
    lkD.state = Phase.DONE ∧ (lkD.update rRR).2 = true ∧
    (lkD.update rRR).1 ≠ lkD := by
  decide

/-- Claim C3 (amended: in DONE, the phase, step index, selection and
streak are unchanged and `update` returns true, but the per-frame
bookkeeping fields — `last_pair`, `last_event`, cooldown and wrong-flash
counters — may still change): for every lock state and input, `update`
returns true exactly when the phase at the end of the call is DONE, and
DONE is terminal. -/
theorem update_true_iff_done_and_done_terminal (lk : PasswordLock) (res : Results) :
    ((lk.update res).2 = true ↔ (lk.update res).1.state = Phase.DONE) ∧
    (lk.state = Phase.DONE →
      (lk.update res).1.state = Phase.DONE ∧
      (lk.update res).1.step_idx = lk.step_idx ∧
      (lk.update res).1.selected_step = lk.selected_step ∧
      (lk.update res).1.streak = lk.streak ∧
      (lk.update res).2 = true) := by
  constructor
  · rcases Nat.eq_zero_or_pos lk.cooldown with hc | hc
    · rcases hst : lk.state
      case ARM =>
        rw [update_arm_dispatch lk res hst hc]
        exact update_arm_true_iff _ _ hst
      case SELECT =>
        rw [update_select_dispatch lk res hst hc]
        exact update_select_true_iff _ _ hst
      case CONFIRM =>
        rw [update_confirm_dispatch lk res hst hc]
        exact update_confirm_true_iff _ _ hst
      case DONE =>
        rw [update_done_eq lk res hst hc]
        simp [hst]
    · rw [update_cooldown_pos lk res hc]
      simp
  · intro hd
    rcases Nat.eq_zero_or_pos lk.cooldown with hc | hc
    · rw [update_done_eq lk res hd hc]
      simp [hd]
    · rw [update_cooldown_pos lk res hc]
      simp [hd]

/-- Witness for C3 (amended) at a concrete DONE lock and frame. -/
theorem update_true_iff_done_and_done_terminal_witness :
    (((lk_done.update rRR).2 = true ↔ (lk_done.update rRR).1.state = Phase.DONE) ∧
      ((lk_done.update rRR).1.state = Phase.DONE ∧
        (lk_done.update rRR).1.step_idx = lk_done.step_idx ∧
        (lk_done.update rRR).1.selected_step = lk_done.selected_step ∧
        (lk_done.update rRR).1.streak = lk_done.streak ∧
        (lk_done.update rRR).2 = true)) :=
  ⟨(update_true_iff_done_and_done_terminal lk_done rRR).1,
   (update_true_iff_done_and_done_terminal lk_done rRR).2 rfl⟩

/-- Witness for C4 (amended), at concrete inputs: a 3-streak of ROCK, a
null reset, an undetected reset, a different-value reset to 1, and a lock
in ARM fed a non-matching pair keeping streak 0. -/
theorem debounce_contract_amended_witness :
    (deb_run (none, 0) (List.replicate 3 (true, some "ROCK"))).2 = 3 ∧
    deb_step (some "ROCK", 5) true none = (none, 0) ∧
    deb_step (some "ROCK", 5) false (some "ROCK") = (none, 0) ∧
    deb_step (some "ROCK", 5) true (some "PAPER") = (some "PAPER", 1) ∧
    ((PasswordLock.start "A" "B" cfg_scenario).update rPP).1.streak = 0 :=
  ⟨debounce_contract_amended.1 3 "ROCK",
   debounce_contract_amended.2.1 (some "ROCK", 5) true,
   debounce_contract_amended.2.2.1 (some "ROCK", 5) (some "ROCK"),
   debounce_contract_amended.2.2.2.1 (some "ROCK", 5) "PAPER" (by decide),
   debounce_contract_amended.2.2.2.2 (PasswordLock.start "A" "B" cfg_scenario)
     rPP rfl rfl (by decide)⟩

/-- Claim C7: transient detection failures resolve cleanly, never as
errors (the embedding of every stage is a total function).  No contour,
or a largest contour below `min_area_detect`, yields no detection; fewer
than 3 hull points, or absent convexity defects, yield finger count 0;
and on a no-detection frame the per-color update still runs the Kalman
predict step while reporting `detected = false`, `bbox = none`,
`center_meas = none`, `gesture = none`. -/
theorem transient_failures_resolve_cleanly :
    (∀ m : Rat, detect_bbox_center m [] = none) ∧
    (∀ (m : Rat) (cs : List Contour) (c : Contour),
      pick_largest cs = some c → c.area < m → detect_bbox_center m cs = none) ∧
    (∀ (d : Option (List Defect)) (ig : Defect → Bool), count_fingers none d ig = 0) ∧
    (∀ (h : List Nat) (d : Option (List Defect)) (ig : Defect → Bool),
      h.length < 3 → count_fingers (some h) d ig = 0) ∧
    (∀ (h : Option (List Nat)) (ig : Defect → Bool), count_fingers h none ig = 0) ∧
    (∀ (κ : Type) (ops : KalmanOps κ) (n : Nat) (st : TrackState κ)
      (recognize : (Int × Int × Int × Int) → Option String),
      update_color ops n st none recognize =
        (⟨ops.predict st.kf, st.init, st.last_size, st.smoother⟩,
         ⟨false, none, none,
          if st.init then some (ops.pos (ops.predict st.kf)) else none, none⟩)) := by
  refine ⟨fun m => rfl, fun m cs c hp ha => ?_, fun d ig => rfl,
    fun h d ig hl => ?_, fun h ig => ?_, fun κ ops n st recognize => rfl⟩
  · simp [detect_bbox_center, hp, ha]
  · simp [count_fingers, hl]
  · cases h with
    | none => rfl
    | some hh =>
      simp only [count_fingers]
      split_ifs <;> rfl

/-- Witness for C7 at concrete inputs: an empty contour list, a lone
contour of area 3 below threshold 5, a 2-point hull, absent defects, and a
concrete no-detection track update. -/
theorem transient_failures_resolve_cleanly_witness :
    detect_bbox_center 5 [] = none ∧
    detect_bbox_center 5 [⟨3, (0, 0, 2, 2)⟩] = none ∧
    count_fingers none (some []) (fun _ => true) = 0 ∧
    count_fingers (some [0, 1]) (some []) (fun _ => true) = 0 ∧
    count_fingers (some [0, 1, 2]) none (fun _ => true) = 0 ∧
    update_color kops_test 10 tstate_test none (fun _ => none) =
      (⟨kops_test.predict tstate_test.kf, tstate_test.init,
        tstate_test.last_size, tstate_test.smoother⟩,
       ⟨false, none, none,
        if tstate_test.init then
          some (kops_test.pos (kops_test.predict tstate_test.kf)) else none,
        none⟩) :=
  ⟨transient_failures_resolve_cleanly.1 5,
   transient_failures_resolve_cleanly.2.1 5 [⟨3, (0, 0, 2, 2)⟩] ⟨3, (0, 0, 2, 2)⟩
     rfl (by norm_num),
   transient_failures_resolve_cleanly.2.2.1 (some []) (fun _ => true),
   transient_failures_resolve_cleanly.2.2.2.1 [0, 1] (some []) (fun _ => true)
     (by decide),
   transient_failures_resolve_cleanly.2.2.2.2.1 (some [0, 1, 2]) (fun _ => true),
   transient_failures_resolve_cleanly.2.2.2.2.2 Int kops_test 10 tstate_test
     (fun _ => none)⟩

/-- Claim C8: the per-color update computes the Kalman prediction
unconditionally (the predicted position feeds `center_pred` whenever the
track is initialized), applies `correct` exactly on frames with a
detection (preceded by the direct state initialization on the first
detection), and once the track is initialized `center_pred` is present on
every frame, including undetected ones. -/
theorem kalman_predict_correct_discipline (κ : Type) (ops : KalmanOps κ)
    (n : Nat) (st : TrackState κ)
    (det : Option ((Int × Int × Int × Int) × (Rat × Rat)))
    (recognize : (Int × Int × Int × Int) → Option String) :
    ((update_color ops n st det recognize).2.center_pred
      = if st.init then some (ops.pos (ops.predict st.kf)) else none) ∧
    (det = none → (update_color ops n st det recognize).1.kf = ops.predict st.kf) ∧
    (∀ (bbox : Int × Int × Int × Int) (c : Rat × Rat), det = some (bbox, c) →
      (update_color ops n st det recognize).1.kf
        = ops.correct c (if st.init then ops.predict st.kf
            else ops.set_post c (ops.predict st.kf))) ∧
    (st.init = true → ((update_color ops n st det recognize).2.center_pred).isSome) ∧
    ((update_color ops n st det recognize).1.init = (st.init || det.isSome)) := by
  cases det with
  | none =>
    refine ⟨rfl, fun _ => rfl, ?_, ?_, ?_⟩
    · intro bbox c h
      exact Option.noConfusion h
    · intro hi
      simp [update_color, hi]
    · simp [update_color]
  | some bc =>
    obtain ⟨bbox, c⟩ := bc
    refine ⟨rfl, ?_, ?_, ?_, ?_⟩
    · intro h
      exact Option.noConfusion h
    · intro b2 c2 h
      injection h with h2
      injection h2 with h3 h4
      subst h3
      subst h4
      rfl
    · intro hi
      simp [update_color, hi]
    · simp [update_color]

/-- Witness for C8 at concrete inputs: an initialized `Int`-state track
stepped once without a detection and once with the detection
`((0,0,2,2),(1,1))`. -/
theorem kalman_predict_correct_discipline_witness :
    ((update_color kops_test 10 tstate_test none (fun _ => none)).1.kf
      = kops_test.predict tstate_test.kf) ∧
    ((update_color kops_test 10 tstate_test (some ((0, 0, 2, 2), (1, 1)))
        (fun _ => none)).1.kf
      = kops_test.correct (1, 1)
          (if tstate_test.init then kops_test.predict tstate_test.kf
           else kops_test.set_post (1, 1) (kops_test.predict tstate_test.kf))) ∧
    ((update_color kops_test 10 tstate_test none
        (fun _ => none)).2.center_pred).isSome ∧
    ((update_color kops_test 10 tstate_fresh (some ((0, 0, 2, 2), (1, 1)))
        (fun _ => none)).1.init = (tstate_fresh.init || true)) :=
  ⟨(kalman_predict_correct_discipline Int kops_test 10 tstate_test none
      (fun _ => none)).2.1 rfl,
   (kalman_predict_correct_discipline Int kops_test 10 tstate_test
      (some ((0, 0, 2, 2), (1, 1))) (fun _ => none)).2.2.1 (0, 0, 2, 2) (1, 1) rfl,
   (kalman_predict_correct_discipline Int kops_test 10 tstate_test none
      (fun _ => none)).2.2.2.1 rfl,
   (kalman_predict_correct_discipline Int kops_test 10 tstate_fresh
      (some ((0, 0, 2, 2), (1, 1))) (fun _ => none)).2.2.2.2⟩

/-- Claim C10: `_current_pair` treats an undetected player's gesture as
absent even when a gesture value is present; gesture strings are
normalized by stripping whitespace and upper-casing, with an empty result
or a non-string value treated as absent; and `update` is insensitive to a
results dict being empty versus explicitly undetected (and, being a total
function, never raises). -/
theorem current_pair_normalization :
    (∀ (lk : PasswordLock) (res : Results) (g : PyVal),
      res lk.p1 = some ⟨false, g⟩ → (PasswordLock.current_pair lk res).1 = none) ∧
    (∀ (lk : PasswordLock) (res : Results) (g : PyVal),
      res lk.p2 = some ⟨false, g⟩ → (PasswordLock.current_pair lk res).2 = none) ∧
    (∀ s : String, PasswordLock.norm_g (PyVal.vstr s)
      = (if PasswordLock.py_upper (PasswordLock.py_strip s) = "" then none
         else some (PasswordLock.py_upper (PasswordLock.py_strip s)))) ∧
    PasswordLock.norm_g PyVal.vnone = none ∧
    PasswordLock.norm_g PyVal.vother = none ∧
    (∀ lk : PasswordLock,
      PasswordLock.current_pair lk (fun _ => none) = (none, none)) ∧
    (∀ lk : PasswordLock,
      lk.update (fun _ => none) =
        lk.update (fun p => if p = lk.p1 then some ⟨false, PyVal.vnone⟩
          else if p = lk.p2 then some ⟨false, PyVal.vnone⟩ else none)) := by
  refine ⟨fun lk res g h => ?_, fun lk res g h => ?_, fun s => rfl, rfl, rfl,
    fun lk => rfl, fun lk => ?_⟩
  · simp [PasswordLock.current_pair, h]
  · simp [PasswordLock.current_pair, h]
  · apply update_res_congr
    simp only [PasswordLock.current_pair]
    split_ifs <;> simp [PasswordLock.norm_g]

/-- Witness for C10 at concrete inputs: player entries that are
undetected yet carry gesture strings, the normalization of a padded
lower-case string, and the empty-dict `update` of a fresh lock. -/
theorem current_pair_normalization_witness :
    (PasswordLock.current_pair (PasswordLock.start "A" "B" cfg_scenario)
      res_hidden_gesture).1 = none ∧
    (PasswordLock.current_pair (PasswordLock.start "A" "B" cfg_scenario)
      res_hidden_gesture).2 = none ∧
    PasswordLock.norm_g (PyVal.vstr "  rock ")
      = (if PasswordLock.py_upper (PasswordLock.py_strip "  rock ") = "" then none
         else some (PasswordLock.py_upper (PasswordLock.py_strip "  rock "))) ∧
    PasswordLock.current_pair (PasswordLock.start "A" "B" cfg_scenario)
      (fun _ => none) = (none, none) ∧
    (PasswordLock.start "A" "B" cfg_scenario).update (fun _ => none) =
      (PasswordLock.start "A" "B" cfg_scenario).update
        (fun p => if p = (PasswordLock.start "A" "B" cfg_scenario).p1
          then some ⟨false, PyVal.vnone⟩
          else if p = (PasswordLock.start "A" "B" cfg_scenario).p2
          then some ⟨false, PyVal.vnone⟩ else none) :=
  ⟨current_pair_normalization.1 (PasswordLock.start "A" "B" cfg_scenario)
     res_hidden_gesture (PyVal.vstr "ROCK") rfl,
   current_pair_normalization.2.1 (PasswordLock.start "A" "B" cfg_scenario)
     res_hidden_gesture (PyVal.vstr "PAPER") rfl,
   current_pair_normalization.2.2.1 "  rock ",
   current_pair_normalization.2.2.2.2.2.1 (PasswordLock.start "A" "B" cfg_scenario),
   current_pair_normalization.2.2.2.2.2.2 (PasswordLock.start "A" "B" cfg_scenario)⟩

end CVRPS
